import Mathlib

/-!
Verification of the theme/color module (`src/theme.rs`) of the repository.

Modelling conventions:
* Rust `&str` values that the parsing code inspects character by character
  are modelled as `List Char` (one list element per Rust `char`).
* `u8` arithmetic is modelled on `Nat`; the `as u8` casts in the source are
  rendered as `% 256` where they occur.
* A Rust `panic!` (process abort) is modelled as `Except.error msg`; code
  that cannot panic returns `Except.ok`.  A parse that merely finds no
  color is `Option.none` inside the `ok` payload, exactly like the source's
  `Option<Color>`.
* The toml tree handed to the loader by the external toml parser is
  modelled by the inductive `Toml` below; a toml table is an association
  list from key to value.
-/

/-- One of the 8 base colors (`BaseColor` in the source). -/
inductive BaseColor where
  | Black
  | Red
  | Green
  | Yellow
  | Blue
  | Magenta
  | Cyan
  | White
deriving DecidableEq, Repr

/-- Ordinal number of a base color (color #0 .. color #7, as documented on
the Rust enum variants). -/
def BaseColor.toNat : BaseColor → Nat
  | .Black => 0
  | .Red => 1
  | .Green => 2
  | .Yellow => 3
  | .Blue => 4
  | .Magenta => 5
  | .Cyan => 6
  | .White => 7

/-- `impl From<u8> for BaseColor`: `match n % 8 { 0 => Black, ... }`. -/
def BaseColor.fromNat (n : Nat) : BaseColor :=
  match n % 8 with
  | 0 => .Black
  | 1 => .Red
  | 2 => .Green
  | 3 => .Yellow
  | 4 => .Blue
  | 5 => .Magenta
  | 6 => .Cyan
  | _ => .White

/-- A color used by the theme (`Color` in the source). -/
inductive Color where
  | Default
  | Dark (c : BaseColor)
  | Light (c : BaseColor)
  | Rgb (r g b : Nat)
  | RgbLowRes (r g b : Nat)
deriving DecidableEq, Repr

/-- `Color::from_256colors(n: u8)`.  The argument is a `Nat` standing for a
`u8`, i.e. callers supply `n < 256`; the body is a direct transcription. -/
def Color.from_256colors (n : Nat) : Color :=
  if n < 8 then
    Color.Dark (BaseColor.fromNat n)
  else if n < 16 then
    Color.Light (BaseColor.fromNat n)
  else
    let n := n - 16
    let r := n / 36
    let g := (n % 36) / 6
    let b := n % 6
    Color.RgbLowRes r g b

/-- A front/back color pair (`ColorPair` in the source). -/
structure ColorPair where
  front : Color
  back : Color
deriving DecidableEq, Repr

/-- `ColorPair::invert`. -/
def ColorPair.invert (p : ColorPair) : ColorPair :=
  { front := p.back, back := p.front }

/-- `ColorPair::from_256colors`. -/
def ColorPair.from_256colors (front back : Nat) : ColorPair :=
  { front := Color.from_256colors front, back := Color.from_256colors back }

/-- Semantic color style role (`ColorStyle` in the source). -/
inductive ColorStyle where
  | Default
  | Background
  | Shadow
  | Primary
  | Secondary
  | Tertiary
  | TitlePrimary
  | TitleSecondary
  | Highlight
  | HighlightInactive
  | Custom (front back : Color)
deriving DecidableEq, Repr

/-- Border drawing style (`BorderStyle` in the source). -/
inductive BorderStyle where
  | Simple
  | Outset
  | None
deriving DecidableEq, Repr

/-- `BorderStyle::from(s: &str)`; strings are modelled as `List Char`. -/
def BorderStyle.fromStr (s : List Char) : BorderStyle :=
  if s = "simple".toList then
    BorderStyle.Simple
  else if s = "outset".toList then
    BorderStyle.Outset
  else
    BorderStyle.None

/-- The color palette (`Palette` in the source): ten named roles. -/
structure Palette where
  background : Color
  shadow : Color
  view : Color
  primary : Color
  secondary : Color
  tertiary : Color
  title_primary : Color
  title_secondary : Color
  highlight : Color
  highlight_inactive : Color
deriving DecidableEq, Repr

/-- A theme (`Theme` in the source). -/
structure Theme where
  shadow : Bool
  borders : BorderStyle
  colors : Palette
deriving DecidableEq, Repr

/-- `impl Default for Theme`. -/
def Theme.default : Theme :=
  { shadow := true
    borders := BorderStyle.Simple
    colors :=
      { background := Color.Dark BaseColor.Blue
        shadow := Color.Dark BaseColor.Black
        view := Color.Dark BaseColor.White
        primary := Color.Dark BaseColor.Black
        secondary := Color.Dark BaseColor.Blue
        tertiary := Color.Light BaseColor.White
        title_primary := Color.Dark BaseColor.Red
        title_secondary := Color.Dark BaseColor.Yellow
        highlight := Color.Dark BaseColor.Red
        highlight_inactive := Color.Dark BaseColor.Blue } }

/-- `ColorStyle::resolve(&self, theme) -> ColorPair`. -/
def ColorStyle.resolve (s : ColorStyle) (theme : Theme) : ColorPair :=
  let c := theme.colors
  let fb : Color × Color :=
    match s with
    | .Default => (Color.Default, Color.Default)
    | .Background => (c.view, c.background)
    | .Shadow => (c.shadow, c.shadow)
    | .Primary => (c.primary, c.view)
    | .Secondary => (c.secondary, c.view)
    | .Tertiary => (c.tertiary, c.view)
    | .TitlePrimary => (c.title_primary, c.view)
    | .TitleSecondary => (c.title_secondary, c.view)
    | .Highlight => (c.view, c.highlight)
    | .HighlightInactive => (c.view, c.highlight_inactive)
    | .Custom front back => (front, back)
  { front := fb.1, back := fb.2 }

/-- Value of one hex digit, as in the `match` inside `load_hex`: the Rust
range patterns `'0'...'9'`, `'a'...'f'`, `'A'...'F'` compare code points,
rendered here through `Char.toNat`; anything else contributes 0. -/
def hexDigitVal (c : Char) : Nat :=
  if '0'.toNat ≤ c.toNat ∧ c.toNat ≤ '9'.toNat then c.toNat - '0'.toNat
  else if 'a'.toNat ≤ c.toNat ∧ c.toNat ≤ 'f'.toNat then c.toNat - 'a'.toNat + 10
  else if 'A'.toNat ≤ c.toNat ∧ c.toNat ≤ 'F'.toNat then c.toNat - 'A'.toNat + 10
  else 0

/-- Accumulator loop of `load_hex`: `sum *= 16; sum += digit`.  The source
uses `i16` for `sum`, which never overflows on the 1- and 2-digit slices
this module feeds it, so `Nat` is faithful at every call site. -/
def load_hex_aux (sum : Nat) : List Char → Nat
  | [] => sum
  | c :: rest => load_hex_aux (sum * 16 + hexDigitVal c) rest

/-- `load_hex(s: &str) -> u16`. -/
def load_hex (s : List Char) : Nat :=
  load_hex_aux 0 s

/-- The shared hex branch of `Color::parse_special`: per-channel slice
length `l` and amplitude `multiplier`, then
`load_hex(&value[i*l..(i+1)*l]) * multiplier as u8` for each channel. -/
def mkHexRgb (v : List Char) (l multiplier : Nat) : Color :=
  let r := load_hex (v.take l) * multiplier
  let g := load_hex ((v.drop l).take l) * multiplier
  let b := load_hex ((v.drop (2 * l)).take l) * multiplier
  Color.Rgb (r % 256) (g % 256) (b % 256)

/-- `Color::parse_special(value: &str) -> Option<Color>`.  The
`panic!("Cannot parse color: {}", value)` on a '#'-prefixed remainder of
length other than 6 or 3 is modelled as `Except.error` carrying the panic
message; every non-panicking path is `Except.ok`. -/
def Color.parse_special (value : List Char) : Except (List Char) (Option Color) :=
  if value.head? = some '#' then
    let v := value.tail
    match v.length with
    | 6 => Except.ok (some (mkHexRgb v 2 1))
    | 3 => Except.ok (some (mkHexRgb v 1 17))
    | _ => Except.error ("Cannot parse color: ".toList ++ v)
  else if value.length = 3 then
    let rgb := value.map (fun c => (c.toNat : Int) - ('0'.toNat : Int))
    if rgb.all (fun i => 0 ≤ i ∧ i < 6) then
      match rgb with
      | [r, g, b] => Except.ok (some (Color.RgbLowRes r.toNat g.toNat b.toNat))
      | _ => Except.ok none
    else
      Except.ok none
  else
    Except.ok none

/-- The sixteen literal name arms of the `match` in `Color::parse`, in
source order: the 8 base names map to `Dark`, the 8 "light "-prefixed
names to `Light`. -/
def colorNameTable : List (List Char × Color) :=
  [("black".toList, Color.Dark BaseColor.Black),
   ("red".toList, Color.Dark BaseColor.Red),
   ("green".toList, Color.Dark BaseColor.Green),
   ("yellow".toList, Color.Dark BaseColor.Yellow),
   ("blue".toList, Color.Dark BaseColor.Blue),
   ("magenta".toList, Color.Dark BaseColor.Magenta),
   ("cyan".toList, Color.Dark BaseColor.Cyan),
   ("white".toList, Color.Dark BaseColor.White),
   ("light black".toList, Color.Light BaseColor.Black),
   ("light red".toList, Color.Light BaseColor.Red),
   ("light green".toList, Color.Light BaseColor.Green),
   ("light yellow".toList, Color.Light BaseColor.Yellow),
   ("light blue".toList, Color.Light BaseColor.Blue),
   ("light magenta".toList, Color.Light BaseColor.Magenta),
   ("light cyan".toList, Color.Light BaseColor.Cyan),
   ("light white".toList, Color.Light BaseColor.White)]

/-- `Color::parse(value: &str) -> Option<Color>`: the literal-name match
(a first-match table lookup, exactly the Rust `match` on string literals),
then delegation to `parse_special` for everything else. -/
def Color.parse (value : List Char) : Except (List Char) (Option Color) :=
  match colorNameTable.lookup value with
  | some color => Except.ok (some color)
  | none => Color.parse_special value

/-- A toml value, as delivered by the external toml parsing library:
exactly the shapes `Theme::load`/`Palette::load`/`load_color` inspect
(string, boolean, array, table) plus a representative of every other
shape, which all fall into the source's `_ => false` arm. -/
inductive Toml where
  | str (s : List Char)
  | boolean (b : Bool)
  | arr (xs : List Toml)
  | table (kvs : List (String × Toml))
  | integer (n : Int)

/-- `toml::value::Table::get`, on the association-list model of a table. -/
def Toml.tget (kvs : List (String × Toml)) (k : String) : Option Toml :=
  (kvs.find? (fun p => p.1 = k)).map (fun p => p.2)

mutual
/-- `load_color(target: &mut Color, value: Option<&toml::Value>) -> bool`.
The mutable target is threaded explicitly: the result is the returned
`bool` paired with the final value of `*target`. -/
def load_color (target : Color) : Option Toml → Except (List Char) (Bool × Color)
  | some (Toml.str s) =>
    match Color.parse s with
    | Except.error e => Except.error e
    | Except.ok (some color) => Except.ok (true, color)
    | Except.ok none => Except.ok (false, target)
  | some (Toml.arr xs) => load_color_any target xs
  | some (Toml.boolean _) => Except.ok (false, target)
  | some (Toml.table _) => Except.ok (false, target)
  | some (Toml.integer _) => Except.ok (false, target)
  | none => Except.ok (false, target)
termination_by v => sizeOf v
decreasing_by
  all_goals simp_wf
  all_goals omega

/-- `array.iter().any(|item| load_color(target, Some(item)))`: short-circuit
left-to-right, threading the target through failed attempts. -/
def load_color_any (target : Color) : List Toml → Except (List Char) (Bool × Color)
  | [] => Except.ok (false, target)
  | x :: xs =>
    match load_color target (some x) with
    | Except.error e => Except.error e
    | Except.ok (true, t) => Except.ok (true, t)
    | Except.ok (false, t) => load_color_any t xs
termination_by xs => sizeOf xs
decreasing_by
  all_goals simp_wf
  all_goals (have hpos : 0 < sizeOf xs := by cases xs <;> simp_arith
             omega)
end

/-- `Palette::load(&mut self, table)`: one `load_color` per field, the
returned `bool`s discarded, the fields updated in place. -/
def Palette.load (p : Palette) (table : List (String × Toml)) :
    Except (List Char) Palette := do
  let (_, background) ← load_color p.background (Toml.tget table "background")
  let (_, shadow) ← load_color p.shadow (Toml.tget table "shadow")
  let (_, view) ← load_color p.view (Toml.tget table "view")
  let (_, primary) ← load_color p.primary (Toml.tget table "primary")
  let (_, secondary) ← load_color p.secondary (Toml.tget table "secondary")
  let (_, tertiary) ← load_color p.tertiary (Toml.tget table "tertiary")
  let (_, title_primary) ← load_color p.title_primary (Toml.tget table "title_primary")
  let (_, title_secondary) ← load_color p.title_secondary (Toml.tget table "title_secondary")
  let (_, highlight) ← load_color p.highlight (Toml.tget table "highlight")
  let (_, highlight_inactive) ← load_color p.highlight_inactive (Toml.tget table "highlight_inactive")
  pure { background, shadow, view, primary, secondary, tertiary,
         title_primary, title_secondary, highlight, highlight_inactive }

/-- First step of `Theme::load`: `if let Some(&Boolean(shadow)) =
table.get("shadow") { self.shadow = shadow; }`. -/
def Theme.loadShadow (th : Theme) (table : List (String × Toml)) : Theme :=
  match Toml.tget table "shadow" with
  | some (Toml.boolean shadow) => { th with shadow }
  | _ => th

/-- Second step of `Theme::load`: `if let Some(&String(ref borders)) =
table.get("borders") { self.borders = BorderStyle::from(borders); }`. -/
def Theme.loadBorders (th : Theme) (table : List (String × Toml)) : Theme :=
  match Toml.tget table "borders" with
  | some (Toml.str borders) => { th with borders := BorderStyle.fromStr borders }
  | _ => th

/-- `Theme::load(&mut self, table)`: optional boolean `shadow`, optional
string `borders`, optional sub-table `colors`, applied in source order. -/
def Theme.load (th : Theme) (table : List (String × Toml)) :
    Except (List Char) Theme :=
  let th := th.loadShadow table
  let th := th.loadBorders table
  match Toml.tget table "colors" with
  | some (Toml.table t) => do
    let colors ← th.colors.load t
    pure { th with colors }
  | _ => Except.ok th

/-- `load_theme(content: &str)`.  Turning the text into a toml tree is the
external toml library (whose syntax failures surface as `Error::Parse`
before any code of this module runs); this models the module's own part,
starting from the parsed tree: default theme, then `Theme::load`. -/
def load_theme (table : List (String × Toml)) : Except (List Char) Theme :=
  Theme.load Theme.default table

/-- `load_default()`. -/
def load_default : Theme :=
  Theme.default

/-- A string value is hex-panic-free: either it does not start with `'#'`,
or its remainder after `'#'` has length exactly 6 or exactly 3 (the two
lengths `Color::parse_special` accepts instead of panicking). -/
def strSafe (s : List Char) : Bool :=
  !(s.head? == some '#') || (s.tail.length == 6) || (s.tail.length == 3)

mutual
/-- A toml value is safe as a color value: feeding it to `load_color`
cannot reach the hex-length panic (directly or through nested arrays). -/
def colorValSafe : Toml → Bool
  | .str s => strSafe s
  | .arr xs => colorValSafeList xs
  | .boolean _ => true
  | .table _ => true
  | .integer _ => true
termination_by v => sizeOf v

/-- All values of a list are safe as color values. -/
def colorValSafeList : List Toml → Bool
  | [] => true
  | x :: xs => colorValSafe x && colorValSafeList xs
termination_by xs => sizeOf xs
end

/-- An optional toml value is safe as a color value. -/
def optValSafe : Option Toml → Bool
  | none => true
  | some v => colorValSafe v

/-- The ten palette field names, in the order `Palette::load` reads them. -/
def paletteKeys : List String :=
  ["background", "shadow", "view", "primary", "secondary", "tertiary",
   "title_primary", "title_secondary", "highlight", "highlight_inactive"]

/-- Every palette field's value in the table (when present) is safe. -/
def paletteTableSafe (t : List (String × Toml)) : Bool :=
  paletteKeys.all (fun k => optValSafe (Toml.tget t k))

/-- A theme table is safe: its optional `colors` sub-table only holds safe
values under the ten palette keys. -/
def themeTableSafe (t : List (String × Toml)) : Bool :=
  match Toml.tget t "colors" with
  | some (Toml.table c) => paletteTableSafe c
  | _ => true

/-! ## Helper lemmas -/

theorem char_toNat_inj {a b : Char} (h : a.toNat = b.toNat) : a = b :=
  Char.eq_of_val_eq (UInt32.eq_of_toBitVec_eq (by
    simp only [Char.toNat, UInt32.toNat] at h
    exact BitVec.eq_of_toNat_eq h))

theorem char_eq_iff_toNat (a b : Char) : a = b ↔ a.toNat = b.toNat :=
  ⟨fun h => by rw [h], char_toNat_inj⟩

theorem hexDigitVal_le (c : Char) : hexDigitVal c ≤ 15 := by
  unfold hexDigitVal
  have h1 : '0'.toNat = 48 := rfl
  have h2 : '9'.toNat = 57 := rfl
  have h3 : 'a'.toNat = 97 := rfl
  have h4 : 'f'.toNat = 102 := rfl
  have h5 : 'A'.toNat = 65 := rfl
  have h6 : 'F'.toNat = 70 := rfl
  split_ifs <;> omega

theorem hexDigitVal_eq_zero (c : Char) (h : c ∉ "0123456789abcdefABCDEF".toList) :
    hexDigitVal c = 0 := by
  have e1 : '0'.toNat = 48 := rfl
  have e2 : '9'.toNat = 57 := rfl
  have e3 : 'a'.toNat = 97 := rfl
  have e4 : 'f'.toNat = 102 := rfl
  have e5 : 'A'.toNat = 65 := rfl
  have e6 : 'F'.toNat = 70 := rfl
  unfold hexDigitVal
  split_ifs with h1 h2 h3
  all_goals try rfl
  all_goals {
    exfalso
    apply h
    simp only [String.toList] at *
    simp only [List.mem_cons, List.not_mem_nil, or_false, char_eq_iff_toNat]
    simp only [show '0'.toNat = 48 from rfl, show '1'.toNat = 49 from rfl,
      show '2'.toNat = 50 from rfl, show '3'.toNat = 51 from rfl,
      show '4'.toNat = 52 from rfl, show '5'.toNat = 53 from rfl,
      show '6'.toNat = 54 from rfl, show '7'.toNat = 55 from rfl,
      show '8'.toNat = 56 from rfl, show '9'.toNat = 57 from rfl,
      show 'a'.toNat = 97 from rfl, show 'b'.toNat = 98 from rfl,
      show 'c'.toNat = 99 from rfl, show 'd'.toNat = 100 from rfl,
      show 'e'.toNat = 101 from rfl, show 'f'.toNat = 102 from rfl,
      show 'A'.toNat = 65 from rfl, show 'B'.toNat = 66 from rfl,
      show 'C'.toNat = 67 from rfl, show 'D'.toNat = 68 from rfl,
      show 'E'.toNat = 69 from rfl, show 'F'.toNat = 70 from rfl]
    omega
  }

theorem load_hex_pair (a b : Char) :
    load_hex [a, b] = 16 * hexDigitVal a + hexDigitVal b := by
  simp [load_hex, load_hex_aux]
  omega

theorem load_hex_single (a : Char) : load_hex [a] = hexDigitVal a := by
  simp [load_hex, load_hex_aux]

theorem mkHexRgb_six (a b c d e f : Char) :
    mkHexRgb [a, b, c, d, e, f] 2 1 =
      Color.Rgb (16 * hexDigitVal a + hexDigitVal b)
        (16 * hexDigitVal c + hexDigitVal d)
        (16 * hexDigitVal e + hexDigitVal f) := by
  have step : mkHexRgb [a, b, c, d, e, f] 2 1 =
      Color.Rgb (load_hex [a, b] * 1 % 256) (load_hex [c, d] * 1 % 256)
        (load_hex [e, f] * 1 % 256) := rfl
  rw [step, load_hex_pair, load_hex_pair, load_hex_pair]
  have ha := hexDigitVal_le a
  have hb := hexDigitVal_le b
  have hc := hexDigitVal_le c
  have hd := hexDigitVal_le d
  have he := hexDigitVal_le e
  have hf := hexDigitVal_le f
  congr 1 <;> omega

theorem mkHexRgb_three (a b c : Char) :
    mkHexRgb [a, b, c] 1 17 =
      Color.Rgb (17 * hexDigitVal a) (17 * hexDigitVal b) (17 * hexDigitVal c) := by
  have step : mkHexRgb [a, b, c] 1 17 =
      Color.Rgb (load_hex [a] * 17 % 256) (load_hex [b] * 17 % 256)
        (load_hex [c] * 17 % 256) := rfl
  rw [step, load_hex_single, load_hex_single, load_hex_single]
  have ha := hexDigitVal_le a
  have hb := hexDigitVal_le b
  have hc := hexDigitVal_le c
  congr 1 <;> omega

/-! ## Claims -/

/-- C1 (evidence of the code bug): at index 232 the 256-color conversion
produces a low-resolution color whose red channel is 6, outside the
documented range [0,5] of `RgbLowRes` ("Each value should be `<= 5`"). -/
theorem c1_from_256colors_out_of_range :
    ∃ r g b : Nat, Color.from_256colors 232 = Color.RgbLowRes r g b ∧ 5 < r :=
  ⟨6, 0, 0, by decide, by omega⟩

/-- C4: `ColorStyle::resolve` is a pure total function of the role and the
theme, matching the fixed role table, and `Custom` bypasses the palette. -/
theorem c4_resolve_table (th : Theme) (front back : Color) :
    ColorStyle.Default.resolve th = ⟨Color.Default, Color.Default⟩ ∧
    ColorStyle.Background.resolve th = ⟨th.colors.view, th.colors.background⟩ ∧
    ColorStyle.Shadow.resolve th = ⟨th.colors.shadow, th.colors.shadow⟩ ∧
    ColorStyle.Primary.resolve th = ⟨th.colors.primary, th.colors.view⟩ ∧
    ColorStyle.Secondary.resolve th = ⟨th.colors.secondary, th.colors.view⟩ ∧
    ColorStyle.Tertiary.resolve th = ⟨th.colors.tertiary, th.colors.view⟩ ∧
    ColorStyle.TitlePrimary.resolve th = ⟨th.colors.title_primary, th.colors.view⟩ ∧
    ColorStyle.TitleSecondary.resolve th = ⟨th.colors.title_secondary, th.colors.view⟩ ∧
    ColorStyle.Highlight.resolve th = ⟨th.colors.view, th.colors.highlight⟩ ∧
    ColorStyle.HighlightInactive.resolve th = ⟨th.colors.view, th.colors.highlight_inactive⟩ ∧
    (ColorStyle.Custom front back).resolve th = ⟨front, back⟩ :=
  ⟨rfl, rfl, rfl, rfl, rfl, rfl, rfl, rfl, rfl, rfl, rfl⟩

/-- C7: 256-color indices 0-7 give the dark base colors, 8-15 the light
base colors (via the modulo-8 conversion), and `BaseColor::from` numbers
the hues by the value modulo 8. -/
theorem c7_from_256colors_base :
    (∀ n : Nat, n < 8 → Color.from_256colors n = Color.Dark (BaseColor.fromNat n)) ∧
    (∀ n : Nat, 8 ≤ n → n < 16 →
      Color.from_256colors n = Color.Light (BaseColor.fromNat (n - 8))) ∧
    (∀ m : Nat, (BaseColor.fromNat m).toNat = m % 8) := by
  refine ⟨by decide, by decide, ?_⟩
  intro m
  unfold BaseColor.fromNat
  generalize hg : m % 8 = k
  have hk : k < 8 := hg ▸ Nat.mod_lt m (by omega)
  interval_cases k <;> rfl

/-- C7 witness: the theorem applied at indices 3 and 11. -/
theorem c7_from_256colors_base_witness :
    Color.from_256colors 3 = Color.Dark (BaseColor.fromNat 3) ∧
    Color.from_256colors 11 = Color.Light (BaseColor.fromNat 3) :=
  ⟨c7_from_256colors_base.1 3 (by omega),
   c7_from_256colors_base.2.1 11 (by omega) (by omega)⟩

/-- C9: `BorderStyle::from` is total and never fails: exactly "simple"
gives Simple, exactly "outset" gives Outset, everything else (empty and
misspelled strings included) gives None. -/
theorem c9_borderstyle_total :
    BorderStyle.fromStr "simple".toList = BorderStyle.Simple ∧
    BorderStyle.fromStr "outset".toList = BorderStyle.Outset ∧
    BorderStyle.fromStr "".toList = BorderStyle.None ∧
    BorderStyle.fromStr "bogus".toList = BorderStyle.None ∧
    (∀ s : List Char, s ≠ "simple".toList → s ≠ "outset".toList →
      BorderStyle.fromStr s = BorderStyle.None) := by
  refine ⟨rfl, rfl, rfl, rfl, ?_⟩
  intro s h1 h2
  unfold BorderStyle.fromStr
  rw [if_neg h1, if_neg h2]

/-- C9 witness: the catch-all case applied at the concrete string "xyz". -/
theorem c9_borderstyle_total_witness :
    BorderStyle.fromStr "xyz".toList = BorderStyle.None :=
  c9_borderstyle_total.2.2.2.2 "xyz".toList (by decide) (by decide)

theorem lookup_mem_snd {α β : Type} [BEq α] [LawfulBEq α]
    (l : List (α × β)) (k : α) (v : β) (h : l.lookup k = some v) :
    v ∈ l.map Prod.snd := by
  induction l with
  | nil => simp [List.lookup] at h
  | cons p t ih =>
    rw [List.lookup] at h
    split at h
    · simp only [Option.some.injEq] at h
      subst h
      simp
    · simp only [List.map_cons, List.mem_cons]
      exact Or.inr (ih h)

theorem parse_special_no_default (s : List Char) (c : Color)
    (h : Color.parse_special s = Except.ok (some c)) : c ≠ Color.Default := by
  unfold Color.parse_special at h
  split_ifs at h with h1 h2
  · dsimp only at h
    split at h
    · simp only [Except.ok.injEq, Option.some.injEq] at h
      subst h; simp [mkHexRgb]
    · simp only [Except.ok.injEq, Option.some.injEq] at h
      subst h; simp [mkHexRgb]
    · simp at h
  · dsimp only at h
    split_ifs at h
    · split at h
      · simp only [Except.ok.injEq, Option.some.injEq] at h
        subst h; simp
      · simp at h
    · simp at h
  · simp at h

theorem parse_no_default (s : List Char) (c : Color)
    (h : Color.parse s = Except.ok (some c)) : c ≠ Color.Default := by
  unfold Color.parse at h
  cases hl : colorNameTable.lookup s with
  | none => rw [hl] at h; exact parse_special_no_default s c h
  | some col =>
    rw [hl] at h
    simp only [Except.ok.injEq, Option.some.injEq] at h
    subst h
    have hall : ∀ x ∈ colorNameTable.map Prod.snd, x ≠ Color.Default := by decide
    exact hall col (lookup_mem_snd _ _ _ hl)

/-- parse never panics on safe strings -/
theorem parse_ok_of_safe (s : List Char) (hs : strSafe s = true) :
    ∃ o, Color.parse s = Except.ok o := by
  unfold Color.parse
  cases hl : colorNameTable.lookup s with
  | some col => exact ⟨some col, rfl⟩
  | none =>
    unfold Color.parse_special
    split_ifs with h1 h2
    · dsimp only
      unfold strSafe at hs
      rw [h1] at hs
      simp only [beq_self_eq_true, Bool.not_true, Bool.false_or, Bool.or_eq_true,
        beq_iff_eq] at hs
      rcases hs with hs | hs <;> rw [hs] <;> exact ⟨_, rfl⟩
    · dsimp only
      split_ifs
      · split
        · exact ⟨_, rfl⟩
        · exact ⟨_, rfl⟩
      · exact ⟨_, rfl⟩
    · exact ⟨_, rfl⟩

theorem load_color_false_unchanged :
    ∀ (target : Color) (v : Option Toml) (c : Color),
      load_color target v = Except.ok (false, c) → c = target := by
  have main := load_color.induct
    (fun target v => ∀ c, load_color target v = Except.ok (false, c) → c = target)
    (fun target xs => ∀ c, load_color_any target xs = Except.ok (false, c) → c = target)
  intro target v
  apply main
  · intro target s e hp c hc
    simp only [load_color, hp] at hc
    exact Except.noConfusion hc
  · intro target s color hp c hc
    simp only [load_color, hp, Except.ok.injEq, Prod.mk.injEq] at hc
    exact Bool.noConfusion hc.1
  · intro target s hp c hc
    simp only [load_color, hp, Except.ok.injEq, Prod.mk.injEq] at hc
    exact hc.2.symm
  · intro target xs ih c hc
    simp only [load_color] at hc
    exact ih c hc
  · intro target b c hc
    simp only [load_color, Except.ok.injEq, Prod.mk.injEq] at hc
    exact hc.2.symm
  · intro target kvs c hc
    simp only [load_color, Except.ok.injEq, Prod.mk.injEq] at hc
    exact hc.2.symm
  · intro target n c hc
    simp only [load_color, Except.ok.injEq, Prod.mk.injEq] at hc
    exact hc.2.symm
  · intro target c hc
    simp only [load_color, Except.ok.injEq, Prod.mk.injEq] at hc
    exact hc.2.symm
  · intro target c hc
    simp only [load_color_any, Except.ok.injEq, Prod.mk.injEq] at hc
    exact hc.2.symm
  · intro target x xs e hp ih c hc
    simp only [load_color_any, hp] at hc
    exact Except.noConfusion hc
  · intro target x xs t hp ih c hc
    simp only [load_color_any, hp, Except.ok.injEq, Prod.mk.injEq] at hc
    exact absurd hc.1 (by simp)
  · intro target x xs t hp ih1 ih2 c hc
    simp only [load_color_any, hp] at hc
    have ht : t = target := ih1 t (by simp [load_color, hp]) 
    subst ht
    exact ih2 c hc

theorem load_color_no_default :
    ∀ (target : Color) (v : Option Toml) (b : Bool) (c : Color),
      load_color target v = Except.ok (b, c) → c = target ∨ c ≠ Color.Default := by
  have main := load_color.induct
    (fun target v => ∀ b c, load_color target v = Except.ok (b, c) →
      c = target ∨ c ≠ Color.Default)
    (fun target xs => ∀ b c, load_color_any target xs = Except.ok (b, c) →
      c = target ∨ c ≠ Color.Default)
  intro target v
  apply main
  · intro target s e hp b c hc
    simp only [load_color, hp] at hc
    exact Except.noConfusion hc
  · intro target s color hp b c hc
    simp only [load_color, hp, Except.ok.injEq, Prod.mk.injEq] at hc
    refine Or.inr ?_
    rw [← hc.2]
    exact parse_no_default s color hp
  · intro target s hp b c hc
    simp only [load_color, hp, Except.ok.injEq, Prod.mk.injEq] at hc
    exact Or.inl hc.2.symm
  · intro target xs ih b c hc
    simp only [load_color] at hc
    exact ih b c hc
  · intro target bb b c hc
    simp only [load_color, Except.ok.injEq, Prod.mk.injEq] at hc
    exact Or.inl hc.2.symm
  · intro target kvs b c hc
    simp only [load_color, Except.ok.injEq, Prod.mk.injEq] at hc
    exact Or.inl hc.2.symm
  · intro target n b c hc
    simp only [load_color, Except.ok.injEq, Prod.mk.injEq] at hc
    exact Or.inl hc.2.symm
  · intro target b c hc
    simp only [load_color, Except.ok.injEq, Prod.mk.injEq] at hc
    exact Or.inl hc.2.symm
  · intro target b c hc
    simp only [load_color_any, Except.ok.injEq, Prod.mk.injEq] at hc
    exact Or.inl hc.2.symm
  · intro target x xs e hp ih b c hc
    simp only [load_color_any, hp] at hc
    exact Except.noConfusion hc
  · intro target x xs t hp ih b c hc
    simp only [load_color_any, hp, Except.ok.injEq, Prod.mk.injEq] at hc
    rcases ih true t hp with h | h
    · rw [← hc.2]
      exact Or.inl (hc.2 ▸ h)
    · rw [← hc.2]
      exact Or.inr h
  · intro target x xs t hp ih1 ih2 b c hc
    simp only [load_color_any, hp] at hc
    have ht : t = target := load_color_false_unchanged target (some x) t hp
    subst ht
    exact ih2 b c hc

theorem load_color_safe_ok :
    ∀ (target : Color) (v : Option Toml), optValSafe v = true →
      ∃ r, load_color target v = Except.ok r := by
  have main := load_color.induct
    (fun target v => optValSafe v = true → ∃ r, load_color target v = Except.ok r)
    (fun target xs => colorValSafeList xs = true →
      ∃ r, load_color_any target xs = Except.ok r)
  intro target v
  apply main
  · intro target s e hp hs
    exfalso
    simp only [optValSafe, colorValSafe] at hs
    obtain ⟨o, ho⟩ := parse_ok_of_safe s hs
    rw [hp] at ho
    exact Except.noConfusion ho
  · intro target s color hp _
    exact ⟨(true, color), by simp only [load_color, hp]⟩
  · intro target s hp _
    exact ⟨(false, target), by simp only [load_color, hp]⟩
  · intro target xs ih hs
    simp only [optValSafe, colorValSafe] at hs
    obtain ⟨r, hr⟩ := ih hs
    exact ⟨r, by simp only [load_color]; exact hr⟩
  · intro target b _
    exact ⟨(false, target), by simp only [load_color]⟩
  · intro target kvs _
    exact ⟨(false, target), by simp only [load_color]⟩
  · intro target n _
    exact ⟨(false, target), by simp only [load_color]⟩
  · intro target _
    exact ⟨(false, target), by simp only [load_color]⟩
  · intro target _
    exact ⟨(false, target), by simp only [load_color_any]⟩
  · intro target x xs e hp ih hs
    exfalso
    simp only [colorValSafeList, Bool.and_eq_true] at hs
    obtain ⟨r, hr⟩ := ih (by simp only [optValSafe]; exact hs.1)
    rw [hp] at hr
    exact Except.noConfusion hr
  · intro target x xs t hp ih hs
    exact ⟨(true, t), by simp only [load_color_any, hp]⟩
  · intro target x xs t hp ih1 ih2 hs
    simp only [colorValSafeList, Bool.and_eq_true] at hs
    obtain ⟨r, hr⟩ := ih2 hs.2
    exact ⟨r, by simp only [load_color_any, hp]; exact hr⟩

theorem palette_load_ok (p : Palette) (t : List (String × Toml))
    (h : paletteTableSafe t = true) : ∃ p', Palette.load p t = Except.ok p' := by
  simp only [paletteTableSafe, paletteKeys, List.all_cons, List.all_nil,
    Bool.and_eq_true, and_true] at h
  obtain ⟨h1, h2, h3, h4, h5, h6, h7, h8, h9, h10⟩ := h
  obtain ⟨⟨b1, c1⟩, e1⟩ := load_color_safe_ok p.background _ h1
  obtain ⟨⟨b2, c2⟩, e2⟩ := load_color_safe_ok p.shadow _ h2
  obtain ⟨⟨b3, c3⟩, e3⟩ := load_color_safe_ok p.view _ h3
  obtain ⟨⟨b4, c4⟩, e4⟩ := load_color_safe_ok p.primary _ h4
  obtain ⟨⟨b5, c5⟩, e5⟩ := load_color_safe_ok p.secondary _ h5
  obtain ⟨⟨b6, c6⟩, e6⟩ := load_color_safe_ok p.tertiary _ h6
  obtain ⟨⟨b7, c7⟩, e7⟩ := load_color_safe_ok p.title_primary _ h7
  obtain ⟨⟨b8, c8⟩, e8⟩ := load_color_safe_ok p.title_secondary _ h8
  obtain ⟨⟨b9, c9⟩, e9⟩ := load_color_safe_ok p.highlight _ h9
  obtain ⟨⟨b10, c10⟩, e10⟩ := load_color_safe_ok p.highlight_inactive _ h10
  refine ⟨{ background := c1, shadow := c2, view := c3, primary := c4,
            secondary := c5, tertiary := c6, title_primary := c7,
            title_secondary := c8, highlight := c9,
            highlight_inactive := c10 }, ?_⟩
  simp only [Palette.load, bind, Except.bind, e1, e2, e3, e4, e5, e6, e7, e8, e9, e10,
    pure, Except.pure]

theorem theme_load_ok (th : Theme) (t : List (String × Toml))
    (h : themeTableSafe t = true) : ∃ th', Theme.load th t = Except.ok th' := by
  unfold themeTableSafe at h
  unfold Theme.load
  cases hc : Toml.tget t "colors" with
  | none => exact ⟨_, rfl⟩
  | some v =>
    rw [hc] at h
    cases v with
    | table c =>
      have hpal : paletteTableSafe c = true := h
      obtain ⟨p', hp⟩ := palette_load_ok ((th.loadShadow t).loadBorders t).colors c hpal
      refine ⟨{ (th.loadShadow t).loadBorders t with colors := p' }, ?_⟩
      dsimp only
      simp only [hp, bind, Except.bind, pure, Except.pure]
    | str s => exact ⟨_, rfl⟩
    | boolean b => exact ⟨_, rfl⟩
    | arr xs => exact ⟨_, rfl⟩
    | integer n => exact ⟨_, rfl⟩

theorem load_color_none_eq (target : Color) :
    load_color target none = Except.ok (false, target) := by
  simp only [load_color]

theorem load_color_str_err (target : Color) (s e : List Char)
    (h : Color.parse s = Except.error e) :
    load_color target (some (Toml.str s)) = Except.error e := by
  simp only [load_color, h]

theorem load_color_str_some (target : Color) (s : List Char) (c : Color)
    (h : Color.parse s = Except.ok (some c)) :
    load_color target (some (Toml.str s)) = Except.ok (true, c) := by
  simp only [load_color, h]

theorem load_color_str_none (target : Color) (s : List Char)
    (h : Color.parse s = Except.ok none) :
    load_color target (some (Toml.str s)) = Except.ok (false, target) := by
  simp only [load_color, h]

/-- C5: on a '#'-prefixed input of hex length 6, `Color::parse` returns
`Rgb` with each channel the 2-hex-digit value taken verbatim; with hex
length 3 each channel is the single digit times 17; upper- and lower-case
digits both count, a non-hex character contributes digit value 0 instead of
failing the parse; and the two concrete examples of the spec hold. -/
theorem c5_hex_parsing :
    (∀ a b c d e f : Char,
      Color.parse ('#' :: [a, b, c, d, e, f]) =
        Except.ok (some (Color.Rgb (16 * hexDigitVal a + hexDigitVal b)
          (16 * hexDigitVal c + hexDigitVal d)
          (16 * hexDigitVal e + hexDigitVal f)))) ∧
    (∀ a b c : Char,
      Color.parse ('#' :: [a, b, c]) =
        Except.ok (some (Color.Rgb (17 * hexDigitVal a) (17 * hexDigitVal b)
          (17 * hexDigitVal c)))) ∧
    (∀ c : Char, c ∉ "0123456789abcdefABCDEF".toList → hexDigitVal c = 0) ∧
    Color.parse "#FF5555".toList = Except.ok (some (Color.Rgb 255 85 85)) ∧
    Color.parse "#ff5555".toList = Except.ok (some (Color.Rgb 255 85 85)) ∧
    Color.parse "#F55".toList = Except.ok (some (Color.Rgb 255 85 85)) := by
  refine ⟨?_, ?_, hexDigitVal_eq_zero, rfl, rfl, rfl⟩
  · intro a b c d e f
    have h0 : Color.parse ('#' :: [a, b, c, d, e, f]) =
        Except.ok (some (mkHexRgb [a, b, c, d, e, f] 2 1)) := rfl
    rw [h0, mkHexRgb_six]
  · intro a b c
    have h0 : Color.parse ('#' :: [a, b, c]) =
        Except.ok (some (mkHexRgb [a, b, c] 1 17)) := rfl
    rw [h0, mkHexRgb_three]

/-- C5 witness: the non-hex-digit clause applied at 'z', and the 6-digit
clause applied at the concrete characters of "#FF5555". -/
theorem c5_hex_parsing_witness :
    hexDigitVal 'z' = 0 ∧
    Color.parse ('#' :: ['F', 'F', '5', '5', '5', '5']) =
      Except.ok (some (Color.Rgb (16 * hexDigitVal 'F' + hexDigitVal 'F')
        (16 * hexDigitVal '5' + hexDigitVal '5')
        (16 * hexDigitVal '5' + hexDigitVal '5'))) :=
  ⟨c5_hex_parsing.2.2.1 'z' (by decide), c5_hex_parsing.1 'F' 'F' '5' '5' '5' '5'⟩

/-- C10: whenever `Color::parse` returns a value it is never
`Color::Default` (the literal names give Dark/Light, the special forms give
Rgb/RgbLowRes), so a configuration override can only leave a palette field
unchanged or set it to a non-Default color. -/
theorem c10_never_default :
    (∀ (s : List Char) (c : Color),
      Color.parse s = Except.ok (some c) → c ≠ Color.Default) ∧
    (∀ (target : Color) (v : Option Toml) (b : Bool) (c : Color),
      load_color target v = Except.ok (b, c) → c = target ∨ c ≠ Color.Default) :=
  ⟨parse_no_default, load_color_no_default⟩

/-- C10 witness: the parse clause applied at the concrete input "red". -/
theorem c10_never_default_witness :
    Color.parse "red".toList = Except.ok (some (Color.Dark BaseColor.Red)) ∧
    Color.Dark BaseColor.Red ≠ Color.Default :=
  ⟨rfl, c10_never_default.1 "red".toList (Color.Dark BaseColor.Red) rfl⟩

/-- C6: `load_color` on an array tries elements left-to-right with the
same logic, stopping at the first element that yields a valid color; a
failed element leaves the target untouched; if no element validates the
field is unchanged and failure is reported; and the spec's example
`["notacolor", "#d3d7cf"]` yields `Rgb(0xd3, 0xd7, 0xcf)`. -/
theorem c6_array_fallback :
    (∀ target : Color,
      load_color target
        (some (Toml.arr [Toml.str "notacolor".toList, Toml.str "#d3d7cf".toList])) =
        Except.ok (true, Color.Rgb 211 215 207)) ∧
    (∀ (target : Color) (v : Option Toml) (c : Color),
      load_color target v = Except.ok (false, c) → c = target) ∧
    (∀ (target : Color) (x : Toml) (xs : List Toml) (r : Color),
      load_color target (some x) = Except.ok (true, r) →
        load_color target (some (Toml.arr (x :: xs))) = Except.ok (true, r)) ∧
    (∀ (target : Color) (x : Toml) (xs : List Toml),
      load_color target (some x) = Except.ok (false, target) →
        load_color target (some (Toml.arr (x :: xs))) =
          load_color target (some (Toml.arr xs))) ∧
    (∀ (target : Color) (xs : List Toml),
      (∀ x ∈ xs, load_color target (some x) = Except.ok (false, target)) →
        load_color target (some (Toml.arr xs)) = Except.ok (false, target)) := by
  refine ⟨?_, load_color_false_unchanged, ?_, ?_, ?_⟩
  · intro target
    have h1 : Color.parse "notacolor".toList = Except.ok none := rfl
    have h2 : Color.parse "#d3d7cf".toList =
        Except.ok (some (Color.Rgb 211 215 207)) := rfl
    simp only [load_color, load_color_any, h1, h2]
  · intro target x xs r h
    simp only [load_color, load_color_any, h]
  · intro target x xs h
    simp only [load_color, load_color_any, h]
  · intro target xs h
    induction xs with
    | nil => simp only [load_color, load_color_any]
    | cons x rest ih =>
      have hx := h x (List.mem_cons_self x rest)
      have hrest : ∀ y ∈ rest, load_color target (some y) = Except.ok (false, target) :=
        fun y hy => h y (List.mem_cons_of_mem x hy)
      have ihr := ih hrest
      simp only [load_color, load_color_any, hx] at ihr ⊢
      exact ihr

/-- C6 witness: the first-success clause applied to the singleton array
`["red"]`. -/
theorem c6_array_fallback_witness :
    load_color Color.Default (some (Toml.arr [Toml.str "red".toList])) =
      Except.ok (true, Color.Dark BaseColor.Red) :=
  c6_array_fallback.2.2.1 Color.Default (Toml.str "red".toList) []
    (Color.Dark BaseColor.Red) (load_color_str_some _ _ _ rfl)

/-- C3: on a '#'-prefixed input whose remainder has length other than 6
or 3 (here "#1234", remainder length 4), `Color::parse` / `parse_special`
neither return a value nor a recoverable no-value: they hit the
`panic!` branch (modelled as `Except.error` carrying the panic message),
and that panic is reachable from the public loading interface
`load_theme`. -/
theorem c3_panic_reachable :
    Color.parse "#1234".toList = Except.error ("Cannot parse color: 1234".toList) ∧
    Color.parse_special "#1234".toList =
      Except.error ("Cannot parse color: 1234".toList) ∧
    load_theme [("colors", Toml.table [("view", Toml.str "#1234".toList)])] =
      Except.error ("Cannot parse color: 1234".toList) := by
  refine ⟨rfl, rfl, ?_⟩
  have hp : Color.parse "#1234".toList =
      Except.error ("Cannot parse color: 1234".toList) := rfl
  unfold load_theme Theme.load
  rw [show Toml.tget [("colors", Toml.table [("view", Toml.str "#1234".toList)])] "colors"
      = some (Toml.table [("view", Toml.str "#1234".toList)]) from rfl]
  dsimp only
  have t1 : Toml.tget [("view", Toml.str "#1234".toList)] "background" = none := rfl
  have t2 : Toml.tget [("view", Toml.str "#1234".toList)] "shadow" = none := rfl
  have t3 : Toml.tget [("view", Toml.str "#1234".toList)] "view" =
      some (Toml.str "#1234".toList) := rfl
  simp only [Palette.load, t1, t2, t3, load_color_none_eq, load_color_str_err _ _ _ hp,
    bind, Except.bind]

/-- C2 (amended): for every input tree in which no palette color value
(directly or nested in arrays) is a '#'-prefixed string of remainder
length other than 6 or 3, loading runs to completion and returns a theme
instead of an error; and an individual field whose value fails to parse
keeps its prior value (`load_color` reports failure with the target
unchanged).  The original unconditional claim is refuted by
`c2_loader_resilience_counterexample`. -/
theorem c2_loader_resilience :
    (∀ table : List (String × Toml), themeTableSafe table = true →
      ∃ th, load_theme table = Except.ok th) ∧
    (∀ (target : Color) (v : Option Toml) (c : Color),
      load_color target v = Except.ok (false, c) → c = target) := by
  refine ⟨?_, load_color_false_unchanged⟩
  intro table h
  unfold load_theme
  exact theme_load_ok Theme.default table h

/-- C2 counterexample: one malformed hex color value ("#12345", remainder
length 5) makes the whole `load_theme` abort with the panic, so loading
does not run to completion on every input tree. -/
theorem c2_loader_resilience_counterexample :
    load_theme [("colors", Toml.table [("primary", Toml.str "#12345".toList)])] =
      Except.error ("Cannot parse color: 12345".toList) := by
  have hp : Color.parse "#12345".toList =
      Except.error ("Cannot parse color: 12345".toList) := rfl
  unfold load_theme Theme.load
  rw [show Toml.tget [("colors", Toml.table [("primary", Toml.str "#12345".toList)])] "colors"
      = some (Toml.table [("primary", Toml.str "#12345".toList)]) from rfl]
  dsimp only
  have t1 : Toml.tget [("primary", Toml.str "#12345".toList)] "background" = none := rfl
  have t2 : Toml.tget [("primary", Toml.str "#12345".toList)] "shadow" = none := rfl
  have t3 : Toml.tget [("primary", Toml.str "#12345".toList)] "view" = none := rfl
  have t4 : Toml.tget [("primary", Toml.str "#12345".toList)] "primary" =
      some (Toml.str "#12345".toList) := rfl
  simp only [Palette.load, t1, t2, t3, t4, load_color_none_eq,
    load_color_str_err _ _ _ hp, bind, Except.bind]

/-- C2 witness: the amended completeness clause applied to the concrete
tree `shadow = false`. -/
theorem c2_loader_resilience_witness :
    ∃ th, load_theme [("shadow", Toml.boolean false)] = Except.ok th :=
  c2_loader_resilience.1 [("shadow", Toml.boolean false)] rfl

/-- C8: loading a tree with `shadow = false`, no borders entry and no
colors table yields exactly the default theme with only the shadow flag
flipped to false; the borders and the whole palette equal the default
ones, and the default shadow flag is true. -/
theorem c8_shadow_false :
    (∀ t : List (String × Toml),
      Toml.tget t "shadow" = some (Toml.boolean false) →
      Toml.tget t "borders" = none →
      Toml.tget t "colors" = none →
      load_theme t = Except.ok { Theme.default with shadow := false }) ∧
    load_theme [("shadow", Toml.boolean false)] =
      Except.ok { Theme.default with shadow := false } ∧
    ({ Theme.default with shadow := false }).borders = Theme.default.borders ∧
    ({ Theme.default with shadow := false }).colors = Theme.default.colors ∧
    Theme.default.shadow = true ∧
    load_default = Theme.default := by
  refine ⟨?_, rfl, rfl, rfl, rfl, rfl⟩
  intro t h1 h2 h3
  unfold load_theme Theme.load Theme.loadShadow Theme.loadBorders
  rw [h1, h2, h3]

/-- C8 witness: the general clause applied to the concrete one-entry
tree `shadow = false`. -/
theorem c8_shadow_false_witness :
    load_theme [("shadow", Toml.boolean false)] =
      Except.ok { Theme.default with shadow := false } :=
  c8_shadow_false.1 [("shadow", Toml.boolean false)] rfl rfl rfl

/-- C4 witness: the resolve table applied at the default theme and a
concrete custom pair. -/
theorem c4_resolve_table_witness :
    ColorStyle.Primary.resolve Theme.default =
      ⟨Theme.default.colors.primary, Theme.default.colors.view⟩ ∧
    (ColorStyle.Custom (Color.Rgb 1 2 3) Color.Default).resolve Theme.default =
      ⟨Color.Rgb 1 2 3, Color.Default⟩ :=
  ⟨(c4_resolve_table Theme.default (Color.Rgb 1 2 3) Color.Default).2.2.2.1,
   (c4_resolve_table Theme.default (Color.Rgb 1 2 3) Color.Default).2.2.2.2.2.2.2.2.2.2⟩
